import Mathlib

set_option maxRecDepth 8192

/-!
Shallow embedding of the chatbot platform's core subsystems
(src/auth.py, src/chatbot.py, src/crud.py, src/main.py):
password custody, token issuance and verification, session resolution,
conversation-context assembly and the remote-completion gateway.

Python strings are modelled as Lean `String`s; Python string slicing and
prefix tests act on code points, so they are embedded through `String.data`
(`List Char`).  Machine-level time is modelled as unix seconds (`Nat`).
Database tables are modelled as Lean lists kept in insertion order, which
for the `messages` table coincides with ascending `timestamp` order
(models.py gives every row `timestamp = datetime.utcnow()` at creation).
-/

/-- Python `s.startswith(pre)`: code-point-level prefix test. -/
def pyStartswith (s pre : String) : Bool :=
  decide (pre.data <+: s.data)

/-- Python `s[n:]`: drop the first `n` code points. -/
def pyDropStr (s : String) (n : Nat) : String :=
  String.mk (s.data.drop n)

/-- Python `l[-n:]`: the last `n` elements of a list (the whole list when it
is shorter than `n`). -/
def lastN (n : Nat) (l : List α) : List α :=
  l.drop (l.length - n)

/-- Python `a or b` for an optional string `a`: `b` when `a` is `None` or
the empty string (both falsy). -/
def pyOrStr (a : Option String) (b : String) : String :=
  match a with
  | some s => if s = "" then b else s
  | none => b

/-! ## Wire-format messages and stored turns (chatbot.py) -/

/-- An entry of the `messages` payload sent to the completion endpoint:
a Python dict with both `"role"` and `"content"` keys present
(chatbot.py lines 44-55, 113-117). -/
structure Msg where
  role : String
  content : String
deriving DecidableEq

/-- A stored turn as received by `ChatBot.chat_with_context`
(chatbot.py line 96): a Python dict whose `"role"` and `"content"` keys may
be absent, read with `msg.get` (lines 115-116). -/
structure StoredMsg where
  role : Option String
  content : Option String
deriving DecidableEq

/-- The hard-coded default system prompt (chatbot.py line 28). -/
def default_system_prompt : String :=
  "You are Grok, a helpful AI assistant with a witty and engaging personality. Provide clear, accurate, and helpful responses to user questions while maintaining your characteristic humor and directness."

/-- The `messages` list assembled by `ChatBot.chat` (chatbot.py lines 44-55):
the system prompt (caller's, unless `None` or empty, else the default),
then the conversation history (`None` and `[]` both contribute nothing),
then the new user message. -/
def ChatBot.buildMessages (message : String) (system_prompt : Option String)
    (conversation_history : Option (List Msg)) : List Msg :=
  Msg.mk "system" (pyOrStr system_prompt default_system_prompt)
    :: (conversation_history.getD [] ++ [Msg.mk "user" message])

/-- Outcome of the single outbound HTTP call inside `ChatBot.chat`
(chatbot.py lines 66-94), as observed by the surrounding Python code:
* `ok content` — status 200 with a well-formed body whose
  `choices[0].message.content` is `content`;
* `okMalformed detail` — status 200 but extracting the text raises (caught
  by the final `except Exception` with message `detail`);
* `err status msg` — a non-200 status, `msg` the `error.message` field of a
  JSON error body when one is present;
* the three exception constructors mirror `httpx.TimeoutException`,
  `httpx.ConnectError` and `httpx.HTTPStatusError`;
* `otherExn detail` — any other exception raised inside the `try` block. -/
inductive GatewayEvent where
  | ok (content : String)
  | okMalformed (detail : String)
  | err (status : Nat) (msg : Option String)
  | timeoutExn
  | connectExn
  | httpStatusExn (status : Nat) (text : String)
  | otherExn (detail : String)
deriving DecidableEq

/-- A Python exception as distinguished by the `except` clauses of
`ChatBot.chat` (chatbot.py lines 87-94). -/
inductive PyExn where
  | timeout
  | connect
  | httpStatus (status : Nat) (text : String)
  | other (detail : String)
deriving DecidableEq

/-- The `try` block of `ChatBot.chat` (chatbot.py lines 42-85): returns the
trimmed completion text on a well-formed 200 body, returns an
`"OpenRouter API Error: ..."` string on a non-200 status (lines 82-85),
and raises in the remaining cases. -/
def chatTryBody (ev : GatewayEvent) : Except PyExn String :=
  match ev with
  | .ok content => .ok content.trim
  | .okMalformed detail => .error (.other detail)
  | .err status msg => .ok ("OpenRouter API Error: " ++ msg.getD ("HTTP " ++ toString status))
  | .timeoutExn => .error .timeout
  | .connectExn => .error .connect
  | .httpStatusExn status text => .error (.httpStatus status text)
  | .otherExn detail => .error (.other detail)

/-- `ChatBot.chat` (chatbot.py lines 30-94): the `try` block surrounded by
its four `except` handlers, each converting the exception into an ordinary
returned string. -/
def ChatBot.chat (ev : GatewayEvent) : Except PyExn String :=
  match chatTryBody ev with
  | .ok s => .ok s
  | .error .timeout => .ok "Request timeout. Please try again later."
  | .error .connect => .ok "Connection error. Please check your internet connection."
  | .error (.httpStatus status text) =>
      .ok ("HTTP Error " ++ toString status ++ ": " ++ text)
  | .error (.other detail) => .ok ("An unexpected error occurred: " ++ detail)

/-- The history conversion of `ChatBot.chat_with_context`
(chatbot.py lines 108-117): keep the last 10 stored turns of its input (a
`None` input, like an empty list, yields no history) and read each turn's
fields with `msg.get("role", "user")` and `msg.get("content", "")`. -/
def chatWithContextHistory (project_messages : Option (List StoredMsg)) : List Msg :=
  match project_messages with
  | none => []
  | some msgs =>
      (lastN 10 msgs).map (fun m => Msg.mk (m.role.getD "user") (m.content.getD ""))

/-- The full `messages` payload that `ChatBot.chat_with_context`
(chatbot.py line 119) causes `ChatBot.chat` to send. -/
def chatWithContextMessages (message : String) (system_prompt : Option String)
    (project_messages : Option (List StoredMsg)) : List Msg :=
  ChatBot.buildMessages message system_prompt (some (chatWithContextHistory project_messages))

/-! ## Message persistence (models.py, crud.py) and the chat endpoint (main.py) -/

/-- A row of the `messages` table (models.py lines 43-53). -/
structure MessageRow where
  project_id : Nat
  role : String
  content : String
deriving DecidableEq

/-- The `messages` table, rows in insertion = ascending-`timestamp` order. -/
abbrev MessagesTable := List MessageRow

/-- `create_message` (crud.py lines 98-104): insert a new row. -/
def create_message (db : MessagesTable) (role content : String) (project_id : Nat) :
    MessagesTable :=
  db ++ [MessageRow.mk project_id role content]

/-- `get_messages_by_project` (crud.py lines 106-110): the project's rows
ordered most recent FIRST (`order_by(Message.timestamp.desc())`), limited
to `limit` rows (the callers use the default `limit = 50`). -/
def get_messages_by_project (db : MessagesTable) (project_id : Nat) (limit : Nat) :
    List MessageRow :=
  ((db.filter (fun m => m.project_id == project_id)).reverse).take limit

/-- The formatting step of `call_llm_api` (main.py lines 60-66): each fetched
row becomes a dict with both keys present. -/
def formatProjectMessages (project_messages : List MessageRow) : List StoredMsg :=
  project_messages.map (fun m => StoredMsg.mk (some m.role) (some m.content))

/-- The `messages` payload sent upstream by `call_llm_api`
(main.py lines 53-72, with the `ChatBot` instance initialized):
format the fetched rows and hand them to `chat_with_context`. -/
def call_llm_api_messages (message : String) (system_prompt : String)
    (project_messages : List MessageRow) : List Msg :=
  chatWithContextMessages message (some system_prompt) (some (formatProjectMessages project_messages))

/-- A plausible rendering of `str(e)` for the exceptions of `PyExn`; only
used on the dead branch of `call_llm_api` below. -/
def PyExn.str : PyExn → String
  | .timeout => "timeout"
  | .connect => "connection failed"
  | .httpStatus status text => "HTTP " ++ toString status ++ ": " ++ text
  | .other detail => detail

/-- The text returned by `call_llm_api` (main.py lines 68-75): the string
`ChatBot.chat` returns, with the `except Exception` handler of
lines 74-75 around it (unreachable, since `chat` traps all exceptions). -/
def call_llm_api_result (ev : GatewayEvent) : String :=
  match ChatBot.chat ev with
  | .ok s => s
  | .error e => "Error calling OpenRouter API: " ++ e.str

/-- The message-persistence effect of `chat_endpoint`
(main.py lines 287-324) on the `messages` table: save the user turn
(line 301), fetch context and call the gateway (lines 308-314), save the
gateway's text as the assistant turn (line 317).  `system_prompt` is the
project's first prompt text, or `""` when the project has none (line 305). -/
def chat_endpoint (db : MessagesTable) (project_id : Nat) (message : String)
    (system_prompt : String) (ev : GatewayEvent) : MessagesTable :=
  let db1 := create_message db "user" message project_id
  let response_text := call_llm_api_result ev
  create_message db1 "assistant" response_text project_id

/-- The `messages` payload the same endpoint sends upstream: the context is
fetched (main.py line 308) AFTER the user turn was persisted (line 301). -/
def chat_endpoint_context (db : MessagesTable) (project_id : Nat) (message : String)
    (system_prompt : String) : List Msg :=
  let db1 := create_message db "user" message project_id
  let previous_messages := get_messages_by_project db1 project_id 50
  call_llm_api_messages message system_prompt previous_messages

/-! ## Password custody (auth.py lines 18-26, over the pyca bcrypt library) -/

/-- Model of a bcrypt hash as produced by `bcrypt.hashpw`: it records the
salt and is determined by the first 72 bytes of the UTF-8 password —
documented pyca/bcrypt behaviour: the algorithm only handles passwords up
to 72 bytes and silently ignores the rest.  The digest itself is idealized
as collision-free on that truncated input, so a hash is modelled by the
salt together with the truncated password bytes it was computed from. -/
structure BcryptHash where
  salt : Nat
  key72 : List UInt8
deriving DecidableEq

/-- The bytes bcrypt actually consumes from a password: the first 72 bytes
of its UTF-8 encoding (`password.encode('utf-8')`, auth.py lines 21, 26;
the encoding is written out at the list level with core's per-character
UTF-8 encoder). -/
def bcryptInput (password : String) : List UInt8 :=
  (password.data.flatMap String.utf8EncodeChar).take 72

/-- `hash_password` (auth.py lines 18-22): salt from `bcrypt.gensalt()`
modelled as an explicit argument. -/
def hash_password (salt : Nat) (password : String) : BcryptHash :=
  BcryptHash.mk salt (bcryptInput password)

/-- `verify_password` (auth.py lines 24-26): `bcrypt.checkpw` re-hashes the
candidate with the stored salt and compares, i.e. under the collision-free
digest model it compares the truncated password bytes. -/
def verify_password (plain_password : String) (hashed_password : BcryptHash) : Bool :=
  bcryptInput plain_password == hashed_password.key72

/-! ## Token service (auth.py lines 12-49, over the python-jose library) -/

/-- `SECRET_KEY` (auth.py line 12). -/
def SECRET_KEY : String := "your-secret-key-change-in-production"

/-- `ACCESS_TOKEN_EXPIRE_MINUTES` (auth.py line 14). -/
def ACCESS_TOKEN_EXPIRE_MINUTES : Nat := 30

/-- Model of a signed JWT as produced by `jose.jwt.encode`: the claims set
`{"sub": ..., "exp": ...}` plus the key it was signed with (a verifier
accepts the signature exactly when its own key matches). -/
structure Jwt where
  sub : Option String
  exp : Nat
  signedWith : String
deriving DecidableEq

/-- `create_access_token` (auth.py lines 28-38): the `data` dict is modelled
by its `"sub"` claim, `expires_delta` in seconds, `now` the value of
`datetime.utcnow()` in unix seconds; `exp` is `now` plus the given delta,
or plus `ACCESS_TOKEN_EXPIRE_MINUTES` minutes when none is given. -/
def create_access_token (sub : Option String) (expires_delta : Option Nat) (now : Nat) : Jwt :=
  let expire : Nat :=
    match expires_delta with
    | some d => now + d
    | none => now + ACCESS_TOKEN_EXPIRE_MINUTES * 60
  Jwt.mk sub expire SECRET_KEY

/-- A raw token string as seen by `verify_token`: either the serialization
of a well-formed signed JWT, or any other string (which `jose.jwt.decode`
rejects as malformed). -/
inductive RawToken where
  | jwt (t : Jwt)
  | malformed (s : String)
deriving DecidableEq

/-- `verify_token` (auth.py lines 40-49): `jose.jwt.decode` raises
`JWTError` on a malformed token, a signature made with another key, or an
expired claim (jose rejects exactly when `exp < now`, zero leeway); the
`except` branch then yields `None`.  Otherwise the `"sub"` claim — possibly
absent, in which case `None` again — is returned. -/
def verify_token (token : RawToken) (now : Nat) : Option String :=
  match token with
  | .malformed _ => none
  | .jwt t => if t.signedWith = SECRET_KEY ∧ now ≤ t.exp then t.sub else none

/-! ## Session resolution (auth.py lines 51-103) -/

/-- `get_token_from_cookie` (auth.py lines 51-56), at the string level:
`request.cookies.get("access_token")` modelled as the optional cookie
value.  Python `if token and token.startswith("Bearer ")`: the empty string
is falsy and also fails the prefix test, so the conjunction is the prefix
test alone; `token[7:]` strips the 7-character prefix. -/
def get_token_from_cookie (access_token : Option String) : Option String :=
  match access_token with
  | none => none
  | some token =>
      if pyStartswith token "Bearer " then some (pyDropStr token 7) else none

/-- The `access_token` cookie value at the token level, for the resolver
pipeline: either a value that does not begin with `"Bearer "`, or
`"Bearer "` followed by the serialization of a raw token. -/
inductive CookieVal where
  | withoutBearer (s : String)
  | bearer (t : RawToken)
deriving DecidableEq

/-- `get_token_from_cookie` acting on the token-level cookie model: the raw
token exactly when the `"Bearer "` prefix is there. -/
def cookieToken (cookie : Option CookieVal) : Option RawToken :=
  match cookie with
  | none => none
  | some (.withoutBearer _) => none
  | some (.bearer t) => some t

/-- A row of the `users` table (models.py lines 8-17). -/
structure UserRow where
  id : Nat
  email : String
  password_hash : BcryptHash
deriving DecidableEq

/-- The `users` table. -/
abbrev UsersTable := List UserRow

/-- `db.query(User).filter(User.email == email).first()`
(auth.py lines 75, 99, 107; also `get_user_by_email`, crud.py lines 16-18). -/
def get_user_by_email (db : UsersTable) (email : String) : Option UserRow :=
  db.find? (fun u => u.email == email)

/-- A FastAPI `HTTPException` response, reduced to the fields the claims
speak about. -/
structure HTTPError where
  status_code : Nat
  detail : String
  www_authenticate : Option String
deriving DecidableEq

/-- The `credentials_exception` built in both resolvers
(auth.py lines 60-64 and 89-93). -/
def credentials_exception : HTTPError :=
  HTTPError.mk 401 "Could not validate credentials" (some "Bearer")

/-- `get_current_user` (auth.py lines 58-85): cookie extraction, token
verification, then user lookup; each failure raises the same
`credentials_exception` (the trailing `except Exception` handler also
maps any stray exception to it; the model has no stray exceptions). -/
def get_current_user (cookie : Option CookieVal) (db : UsersTable) (now : Nat) :
    Except HTTPError UserRow :=
  match cookieToken cookie with
  | none => .error credentials_exception
  | some token =>
      match verify_token token now with
      | none => .error credentials_exception
      | some email =>
          match get_user_by_email db email with
          | none => .error credentials_exception
          | some user => .ok user

/-- The `Authorization` header as consumed by FastAPI's
`OAuth2PasswordBearer` (`oauth2_scheme`, auth.py line 16): absent, present
with a scheme other than `bearer`, or a bearer scheme carrying a raw
token. -/
inductive AuthHeader where
  | notBearer (s : String)
  | bearer (t : RawToken)
deriving DecidableEq

/-- Modelled from the FastAPI library (not in src/):
`OAuth2PasswordBearer.__call__` with the default `auto_error=True` raises
`HTTPException(401, detail="Not authenticated",
headers={"WWW-Authenticate": "Bearer"})` when the header is absent or its
scheme is not `bearer`, and otherwise yields the value after the scheme. -/
def oauth2_scheme (authorization : Option AuthHeader) : Except HTTPError RawToken :=
  match authorization with
  | none => .error (HTTPError.mk 401 "Not authenticated" (some "Bearer"))
  | some (.notBearer _) => .error (HTTPError.mk 401 "Not authenticated" (some "Bearer"))
  | some (.bearer t) => .ok t

/-- `get_current_user_api` (auth.py lines 87-103), together with its
`Depends(oauth2_scheme)` extraction step: token verification then user
lookup, each failure raising the same `credentials_exception`. -/
def get_current_user_api (authorization : Option AuthHeader) (db : UsersTable) (now : Nat) :
    Except HTTPError UserRow :=
  match oauth2_scheme authorization with
  | .error e => .error e
  | .ok token =>
      match verify_token token now with
      | none => .error credentials_exception
      | some email =>
          match get_user_by_email db email with
          | none => .error credentials_exception
          | some user => .ok user

/-! ## Login (auth.py lines 105-112, main.py lines 78-95) -/

/-- `authenticate_user` (auth.py lines 105-112): `None` both when the email
matches no user and when the stored hash rejects the password. -/
def authenticate_user (db : UsersTable) (email password : String) : Option UserRow :=
  match get_user_by_email db email with
  | none => none
  | some user => if verify_password password user.password_hash then some user else none

/-- Result of the `/token` endpoint: a bearer token, or an HTTP error. -/
inductive LoginResult where
  | token (access_token : Jwt) (token_type : String)
  | failure (e : HTTPError)
deriving DecidableEq

/-- `login_for_access_token` (main.py lines 78-95): a failed
`authenticate_user` raises 401 `"Incorrect email or password"` with a
`WWW-Authenticate: Bearer` header; success mints a token for the user's
email with a 30-minute TTL. -/
def login_for_access_token (db : UsersTable) (username password : String) (now : Nat) :
    LoginResult :=
  match authenticate_user db username password with
  | none => .failure (HTTPError.mk 401 "Incorrect email or password" (some "Bearer"))
  | some user =>
      .token (create_access_token (some user.email) (some (ACCESS_TOKEN_EXPIRE_MINUTES * 60)) now)
        "bearer"

/-! ## Helper lemmas -/

/-- A list slice `l[-n:]` of a list no longer than `n` is the whole list. -/
theorem lastN_of_length_le (n : Nat) (l : List α) (h : l.length ≤ n) : lastN n l = l := by
  unfold lastN
  rw [Nat.sub_eq_zero_of_le h, List.drop_zero]

/-- `chatWithContextHistory` on a present message list, unfolded. -/
theorem chatWithContextHistory_some (msgs : List StoredMsg) :
    chatWithContextHistory (some msgs)
      = (lastN 10 msgs).map (fun m => Msg.mk (m.role.getD "user") (m.content.getD "")) := rfl

/-- `verify_token` on a structurally well-formed token, unfolded. -/
theorem verify_token_jwt (j : Jwt) (now : Nat) :
    verify_token (.jwt j) now
      = if j.signedWith = SECRET_KEY ∧ now ≤ j.exp then j.sub else none := rfl

/-- The `exp` claim minted by `create_access_token`. -/
theorem create_access_token_exp (sub : Option String) (d : Option Nat) (now : Nat) :
    (create_access_token sub d now).exp = now + d.getD (ACCESS_TOKEN_EXPIRE_MINUTES * 60) := by
  cases d <;> rfl

/-- The key a minted token is signed with. -/
theorem create_access_token_signedWith (sub : Option String) (d : Option Nat) (now : Nat) :
    (create_access_token sub d now).signedWith = SECRET_KEY := rfl

/-- The subject claim of a minted token. -/
theorem create_access_token_sub (sub : Option String) (d : Option Nat) (now : Nat) :
    (create_access_token sub d now).sub = sub := rfl

/-! ## Claim theorems -/

/-- Claim C6: `get_token_from_cookie` yields a raw token exactly when the
cookie is present and its value literally begins with the 7-character
prefix `"Bearer "`, in which case that prefix is stripped; in particular
`"Bearer abc123"` yields `"abc123"`, and an absent cookie or an unprefixed
value yields no token. -/
theorem c6_cookie_extraction (cookie : Option String) (t : String) :
    (get_token_from_cookie cookie = some t ↔ cookie = some ("Bearer " ++ t))
    ∧ get_token_from_cookie (some "Bearer abc123") = some "abc123"
    ∧ get_token_from_cookie (some "abc123") = none
    ∧ get_token_from_cookie none = none := by
  refine ⟨?_, by decide, by decide, rfl⟩
  constructor
  · intro h
    match cookie with
    | none => simp [get_token_from_cookie] at h
    | some v =>
      simp only [get_token_from_cookie] at h
      by_cases hp : pyStartswith v "Bearer "
      · simp only [hp, if_pos] at h
        obtain ⟨l, hl⟩ := of_decide_eq_true hp
        injection h with h
        subst h
        congr 1
        apply String.ext
        simp [String.data_append, ← hl, pyDropStr]
      · simp [hp] at h
  · rintro rfl
    simp [get_token_from_cookie, pyStartswith, pyDropStr, String.data_append,
      List.prefix_append]

/-- Claim C8 counterexample: two distinct passwords — 73 copies of `'a'`
and 72 copies of `'a'` — agree on their first 72 UTF-8 bytes, so the longer
one verifies against the shorter one's hash. -/
theorem c8_counterexample :
    String.mk (List.replicate 73 'a') ≠ String.mk (List.replicate 72 'a')
    ∧ verify_password (String.mk (List.replicate 73 'a'))
        (hash_password 0 (String.mk (List.replicate 72 'a'))) = true := by
  decide

/-- Claim C8 (amended): every password verifies against its own hash, and a
candidate fails against another password's hash whenever the two differ in
their first 72 UTF-8 bytes (bcrypt ignores any bytes past 72, so distinct
passwords sharing that truncated prefix verify against each other's
hashes). -/
theorem c8_password_roundtrip (p1 p2 : String) (salt : Nat)
    (h : bcryptInput p1 ≠ bcryptInput p2) :
    verify_password p1 (hash_password salt p1) = true
    ∧ verify_password p1 (hash_password salt p2) = false := by
  constructor
  · simp [verify_password, hash_password]
  · simpa [verify_password, hash_password] using h

theorem c8_password_roundtrip_witness :
    verify_password "pw123" (hash_password 0 "pw123") = true
    ∧ verify_password "pw123" (hash_password 0 "other") = false :=
  c8_password_roundtrip "pw123" "other" 0 (by decide)

/-- Claim C5: a minted token's `exp` claim is the issue time plus the
supplied TTL, defaulting to `ACCESS_TOKEN_EXPIRE_MINUTES = 30` minutes;
verification at any time strictly before `exp` returns the subject, and at
any time strictly after `exp` fails. -/
theorem c5_token_expiry (s : String) (expires_delta : Option Nat) (now t : Nat) :
    (create_access_token (some s) expires_delta now).exp
        = now + expires_delta.getD (ACCESS_TOKEN_EXPIRE_MINUTES * 60)
    ∧ ACCESS_TOKEN_EXPIRE_MINUTES = 30
    ∧ (t < (create_access_token (some s) expires_delta now).exp →
        verify_token (.jwt (create_access_token (some s) expires_delta now)) t = some s)
    ∧ ((create_access_token (some s) expires_delta now).exp < t →
        verify_token (.jwt (create_access_token (some s) expires_delta now)) t = none) := by
  refine ⟨create_access_token_exp _ _ _, rfl, ?_, ?_⟩
  · intro ht
    rw [verify_token_jwt,
      if_pos ⟨create_access_token_signedWith _ _ _, Nat.le_of_lt ht⟩,
      create_access_token_sub]
  · intro ht
    rw [verify_token_jwt, if_neg]
    intro hcon
    exact absurd ht (Nat.not_lt.mpr hcon.2)

theorem c5_token_expiry_witness :
    verify_token (.jwt (create_access_token (some "a@x.com") none 1000)) 1005 = some "a@x.com"
    ∧ verify_token (.jwt (create_access_token (some "a@x.com") none 1000)) 2801 = none :=
  ⟨(c5_token_expiry "a@x.com" none 1000 1005).2.2.1 (by decide),
   (c5_token_expiry "a@x.com" none 1000 2801).2.2.2 (by decide)⟩

/-- Claim C3: whatever the outcome of the outbound call — timeout,
connection failure, non-OK provider status, or any other exception —
`ChatBot.chat` returns an ordinary string describing the failure and never
propagates an exception. -/
theorem c3_chat_never_raises (ev : GatewayEvent) :
    (∃ s, ChatBot.chat ev = .ok s)
    ∧ ChatBot.chat .timeoutExn = .ok "Request timeout. Please try again later."
    ∧ ChatBot.chat .connectExn = .ok "Connection error. Please check your internet connection."
    ∧ (∀ status text, ChatBot.chat (.httpStatusExn status text)
        = .ok ("HTTP Error " ++ toString status ++ ": " ++ text))
    ∧ (∀ status msg, ChatBot.chat (.err status msg)
        = .ok ("OpenRouter API Error: " ++ msg.getD ("HTTP " ++ toString status)))
    ∧ (∀ detail, ChatBot.chat (.otherExn detail)
        = .ok ("An unexpected error occurred: " ++ detail)) := by
  refine ⟨?_, rfl, rfl, fun _ _ => rfl, fun _ _ => rfl, fun _ => rfl⟩
  cases ev <;> exact ⟨_, rfl⟩

/-- Claim C4: the chat endpoint persists the user's message and then some
assistant turn for every gateway outcome; when the remote call times out,
the persisted assistant turn is exactly the gateway's fallback string, so
the user turn is never orphaned. -/
theorem c4_failed_call_still_persists (db : MessagesTable) (project_id : Nat)
    (message system_prompt : String) (ev : GatewayEvent) :
    (∃ r, chat_endpoint db project_id message system_prompt ev
        = db ++ [MessageRow.mk project_id "user" message,
            MessageRow.mk project_id "assistant" r])
    ∧ chat_endpoint db project_id message system_prompt .timeoutExn
        = db ++ [MessageRow.mk project_id "user" message,
            MessageRow.mk project_id "assistant" "Request timeout. Please try again later."] := by
  constructor
  · exact ⟨call_llm_api_result ev, by simp [chat_endpoint, create_message]⟩
  · simp [chat_endpoint, create_message, call_llm_api_result, ChatBot.chat, chatTryBody]

/-- Claim C9: `authenticate_user` collapses "unknown email" and "wrong
password" into the same `None`, and the `/token` endpoint maps that `None`
to one fixed 401 response, so the two failure causes are
indistinguishable to the caller. -/
theorem c9_login_uniform_failure (db : UsersTable) (email password : String) (now : Nat) :
    (get_user_by_email db email = none → authenticate_user db email password = none)
    ∧ (∀ u, get_user_by_email db email = some u →
        verify_password password u.password_hash = false →
        authenticate_user db email password = none)
    ∧ (authenticate_user db email password = none →
        login_for_access_token db email password now
          = .failure (HTTPError.mk 401 "Incorrect email or password" (some "Bearer"))) := by
  refine ⟨?_, ?_, ?_⟩
  · intro h
    simp [authenticate_user, h]
  · intro u hu hv
    simp [authenticate_user, hu, hv]
  · intro h
    simp [login_for_access_token, h]

theorem c9_login_uniform_failure_witness :
    authenticate_user [UserRow.mk 1 "a@x.com" (hash_password 0 "right")] "b@x.com" "pw" = none
    ∧ authenticate_user [UserRow.mk 1 "a@x.com" (hash_password 0 "right")] "a@x.com" "wrong" = none
    ∧ login_for_access_token [UserRow.mk 1 "a@x.com" (hash_password 0 "right")] "b@x.com" "pw" 0
        = .failure (HTTPError.mk 401 "Incorrect email or password" (some "Bearer")) := by
  refine ⟨(c9_login_uniform_failure _ "b@x.com" "pw" 0).1 (by decide),
    (c9_login_uniform_failure _ "a@x.com" "wrong" 0).2.1
      (UserRow.mk 1 "a@x.com" (hash_password 0 "right")) (by decide) (by decide),
    (c9_login_uniform_failure _ "b@x.com" "pw" 0).2.2
      ((c9_login_uniform_failure _ "b@x.com" "pw" 0).1 (by decide))⟩

/-- Claim C2 counterexample: with no cookie the cookie resolver fails with
detail `"Could not validate credentials"`, but with no `Authorization`
header the API resolver fails inside the bearer-scheme extraction with
detail `"Not authenticated"` — the two responses differ, so the missing
case is distinguishable. -/
theorem c2_counterexample :
    get_current_user none [] 0 = .error credentials_exception
    ∧ get_current_user_api none [] 0
        = .error (HTTPError.mk 401 "Not authenticated" (some "Bearer"))
    ∧ HTTPError.mk 401 "Not authenticated" (some "Bearer") ≠ credentials_exception := by
  refine ⟨rfl, rfl, by decide⟩

/-- Claim C2 (amended): every failure of either resolver is an HTTP 401
with a `WWW-Authenticate: Bearer` header; every failure of the cookie
resolver — missing cookie, unprefixed value, malformed, wrongly-signed or
expired token, missing subject, unknown subject — is the one
`credentials_exception` with detail `"Could not validate credentials"`,
and so is every failure of the header resolver once a bearer token was
presented; only a missing or non-bearer `Authorization` header differs,
failing in the framework's extraction step with detail
`"Not authenticated"`. -/
theorem c2_resolver_failures (cookie : Option CookieVal)
    (authorization : Option AuthHeader) (db : UsersTable) (now : Nat) :
    (∀ e, get_current_user cookie db now = .error e → e = credentials_exception)
    ∧ (∀ e, get_current_user_api authorization db now = .error e →
        e.status_code = 401 ∧ e.www_authenticate = some "Bearer")
    ∧ (∀ tok e, authorization = some (.bearer tok) →
        get_current_user_api authorization db now = .error e →
        e = credentials_exception) := by
  refine ⟨?_, ?_, ?_⟩
  · intro e he
    unfold get_current_user at he
    cases hc : cookieToken cookie with
    | none =>
      simp only [hc, Except.error.injEq] at he
      exact he.symm
    | some token =>
      simp only [hc] at he
      cases hv : verify_token token now with
      | none => simp only [hv, Except.error.injEq] at he; exact he.symm
      | some email =>
        simp only [hv] at he
        cases hu : get_user_by_email db email with
        | none => simp only [hu, Except.error.injEq] at he; exact he.symm
        | some user => simp only [hu] at he; exact absurd he (by simp)
  · intro e he
    cases authorization with
    | none =>
      simp only [get_current_user_api, oauth2_scheme, Except.error.injEq] at he
      rw [← he]
      exact ⟨rfl, rfl⟩
    | some h =>
      cases h with
      | notBearer s =>
        simp only [get_current_user_api, oauth2_scheme, Except.error.injEq] at he
        rw [← he]
        exact ⟨rfl, rfl⟩
      | bearer tok =>
        simp only [get_current_user_api, oauth2_scheme] at he
        cases hv : verify_token tok now with
        | none =>
          simp only [hv, Except.error.injEq] at he
          rw [← he]
          exact ⟨rfl, rfl⟩
        | some email =>
          simp only [hv] at he
          cases hu : get_user_by_email db email with
          | none =>
            simp only [hu, Except.error.injEq] at he
            rw [← he]
            exact ⟨rfl, rfl⟩
          | some user => simp only [hu] at he; exact absurd he (by simp)
  · intro tok e ha he
    subst ha
    simp only [get_current_user_api, oauth2_scheme] at he
    cases hv : verify_token tok now with
    | none => simp only [hv, Except.error.injEq] at he; exact he.symm
    | some email =>
      simp only [hv] at he
      cases hu : get_user_by_email db email with
      | none => simp only [hu, Except.error.injEq] at he; exact he.symm
      | some user => simp only [hu] at he; exact absurd he (by simp)

theorem c2_resolver_failures_witness :
    credentials_exception = credentials_exception
    ∧ (credentials_exception.status_code = 401
        ∧ credentials_exception.www_authenticate = some "Bearer") := by
  refine ⟨(c2_resolver_failures (some (.withoutBearer "abc")) none [] 0).1
      credentials_exception rfl,
    (c2_resolver_failures none (some (.bearer (.malformed "x"))) [] 0).2.1
      credentials_exception rfl⟩

/-- Claim C7 counterexample: a stored turn whose role holds the
unrecognized value `"tool"` is forwarded with role `"tool"`, not with the
claimed default `"user"`. -/
theorem c7_counterexample :
    chatWithContextHistory (some [StoredMsg.mk (some "tool") (some "x")])
      = [Msg.mk "tool" "x"]
    ∧ ("tool" : String) ≠ "user" := by
  refine ⟨rfl, by decide⟩

/-- Claim C7 (amended): a windowed stored turn with a missing role is
forwarded with the defensive default role `"user"`, while a turn whose role
field is present — whatever its value, recognized or not — is forwarded
with that value unchanged; conversely every context entry arises this way
from some windowed turn. -/
theorem c7_role_defaulting (msgs : List StoredMsg) (m : StoredMsg)
    (hm : m ∈ lastN 10 msgs) :
    (m.role = none →
      Msg.mk "user" (m.content.getD "") ∈ chatWithContextHistory (some msgs))
    ∧ (∀ r, m.role = some r →
      Msg.mk r (m.content.getD "") ∈ chatWithContextHistory (some msgs))
    ∧ (∀ e, e ∈ chatWithContextHistory (some msgs) →
      ∃ m2, m2 ∈ lastN 10 msgs ∧ e.role = m2.role.getD "user"
        ∧ e.content = m2.content.getD "") := by
  refine ⟨?_, ?_, ?_⟩
  · intro hr
    simp only [chatWithContextHistory]
    exact List.mem_map.mpr ⟨m, hm, by simp [hr]⟩
  · intro r hr
    simp only [chatWithContextHistory]
    exact List.mem_map.mpr ⟨m, hm, by simp [hr]⟩
  · intro e he
    simp only [chatWithContextHistory] at he
    obtain ⟨m2, hm2, he2⟩ := List.mem_map.mp he
    exact ⟨m2, hm2, by rw [← he2], by rw [← he2]⟩

theorem c7_role_defaulting_witness :
    Msg.mk "user" "hi" ∈ chatWithContextHistory (some [StoredMsg.mk none (some "hi")]) :=
  (c7_role_defaulting [StoredMsg.mk none (some "hi")] (StoredMsg.mk none (some "hi"))
    (by decide)).1 rfl

/-- Claim C10: when the project holds at most 10 messages once the user's
new message is persisted, the context sent upstream contains that message
twice — once inside the fetched history window (the endpoint fetches the
project's messages only after persisting the user turn) and once more as
the final user entry appended by the gateway. -/
theorem c10_duplicated_user_message (db : MessagesTable) (project_id : Nat)
    (message system_prompt : String)
    (h : (db.filter (fun m => m.project_id == project_id)).length + 1 ≤ 10) :
    ∃ hist,
      chat_endpoint_context db project_id message system_prompt
        = Msg.mk "system" (pyOrStr (some system_prompt) default_system_prompt)
            :: (hist ++ [Msg.mk "user" message])
      ∧ Msg.mk "user" message ∈ hist := by
  refine ⟨Msg.mk "user" message
      :: ((db.filter (fun m => m.project_id == project_id)).reverse.map
        (fun r => Msg.mk r.role r.content)), ?_, List.mem_cons_self _ _⟩
  have hfilter : (create_message db "user" message project_id).filter
        (fun m => m.project_id == project_id)
      = db.filter (fun m => m.project_id == project_id)
          ++ [MessageRow.mk project_id "user" message] := by
    simp [create_message, List.filter_append]
  have hfetch : get_messages_by_project (create_message db "user" message project_id)
        project_id 50
      = MessageRow.mk project_id "user" message
          :: (db.filter (fun m => m.project_id == project_id)).reverse := by
    unfold get_messages_by_project
    rw [hfilter, List.reverse_append, List.reverse_singleton, List.singleton_append,
      List.take_of_length_le]
    simp only [List.length_cons, List.length_reverse]
    omega
  show call_llm_api_messages message system_prompt
      (get_messages_by_project (create_message db "user" message project_id) project_id 50)
    = _
  rw [hfetch]
  unfold call_llm_api_messages chatWithContextMessages ChatBot.buildMessages
    formatProjectMessages
  rw [chatWithContextHistory_some, lastN_of_length_le]
  · simp [Function.comp]
  · simp only [List.length_map, List.length_cons, List.length_reverse]
    omega

/-- A project (id 1) with fifteen stored turns `m1`..`m15`, oldest to
newest, roles alternating user/assistant. -/
def fifteenTurns : MessagesTable :=
  [MessageRow.mk 1 "user" "m1", MessageRow.mk 1 "assistant" "m2",
   MessageRow.mk 1 "user" "m3", MessageRow.mk 1 "assistant" "m4",
   MessageRow.mk 1 "user" "m5", MessageRow.mk 1 "assistant" "m6",
   MessageRow.mk 1 "user" "m7", MessageRow.mk 1 "assistant" "m8",
   MessageRow.mk 1 "user" "m9", MessageRow.mk 1 "assistant" "m10",
   MessageRow.mk 1 "user" "m11", MessageRow.mk 1 "assistant" "m12",
   MessageRow.mk 1 "user" "m13", MessageRow.mk 1 "assistant" "m14",
   MessageRow.mk 1 "user" "m15"]

/-- Claim C1 evaluated at a project with fifteen stored prior turns:
`get_messages_by_project` fetches the turns most recent first, and
`chat_with_context` then keeps the LAST ten entries of that newest-first
sequence — so the built context carries the ten OLDEST turns `m10`..`m1`
in newest-to-oldest order, not the last ten turns `m6`..`m15` in their
original oldest-to-newest order as the claim states. -/
theorem c1_window_bug_evaluation :
    call_llm_api_messages "new question" "project prompt"
        (get_messages_by_project fifteenTurns 1 50)
      = Msg.mk "system" "project prompt"
          :: ([Msg.mk "assistant" "m10", Msg.mk "user" "m9",
               Msg.mk "assistant" "m8", Msg.mk "user" "m7",
               Msg.mk "assistant" "m6", Msg.mk "user" "m5",
               Msg.mk "assistant" "m4", Msg.mk "user" "m3",
               Msg.mk "assistant" "m2", Msg.mk "user" "m1"]
            ++ [Msg.mk "user" "new question"])
    ∧ call_llm_api_messages "new question" "project prompt"
        (get_messages_by_project fifteenTurns 1 50)
      ≠ Msg.mk "system" "project prompt"
          :: ([Msg.mk "assistant" "m6", Msg.mk "user" "m7",
               Msg.mk "assistant" "m8", Msg.mk "user" "m9",
               Msg.mk "assistant" "m10", Msg.mk "user" "m11",
               Msg.mk "assistant" "m12", Msg.mk "user" "m13",
               Msg.mk "assistant" "m14", Msg.mk "user" "m15"]
            ++ [Msg.mk "user" "new question"]) := by
  refine ⟨by decide, by decide⟩

theorem c10_duplicated_user_message_witness :
    ∃ hist,
      chat_endpoint_context [MessageRow.mk 1 "user" "a", MessageRow.mk 1 "assistant" "b"]
          1 "hi" ""
        = Msg.mk "system" (pyOrStr (some "") default_system_prompt)
            :: (hist ++ [Msg.mk "user" "hi"])
      ∧ Msg.mk "user" "hi" ∈ hist :=
  c10_duplicated_user_message [MessageRow.mk 1 "user" "a", MessageRow.mk 1 "assistant" "b"]
    1 "hi" "" (by decide)
